import Mathlib

/-!
Verification of the conversation state machine of the WhatsApp mythology
bot.  The definitions below are a shallow embedding of the language
selection router (`handler` in the Map-backed webhook variant), of the menu
resolver, and of the content pipeline adapter; the external services (text
generation, text-to-speech, media upload) are modelled by an oracle of call
outcomes, and the temp audio file by an explicit `Option` file state.
-/

namespace WhatsappBot

/-- Entries of the `languageNames` object literal: supported language codes
with their human-readable display names, in declaration order. -/
def langEntries : List (String × String) := [
  ("en", "English"), ("hi", "Hindi"), ("ta", "Tamil"), ("bn", "Bengali"),
  ("mr", "Marathi"), ("ml", "Malayalam"), ("te", "Telugu"), ("pa", "Punjabi"),
  ("gu", "Gujarati"), ("kn", "Kannada"), ("or", "Odia"), ("ur", "Urdu"),
  ("as", "Assamese"), ("ne", "Nepali"), ("sa", "Sanskrit")]

/-- Result of `Object.keys(languageNames)`: the codes in declaration order. -/
def langKeys : List String := langEntries.map Prod.fst

/-- Lookup `languageNames[code]`; a missing key would interpolate as the
string `undefined` in the JS template literal. -/
def languageNameD (code : String) : String :=
  match langEntries.find? (fun e => e.fst = code) with
  | some e => e.snd
  | none => "undefined"

/-- Whitespace characters stripped by JS `String.prototype.trim` (ASCII
whitespace plus no-break space and BOM; other rare Unicode space characters
are outside the modelled input alphabet). -/
def jsWhitespace (c : Char) : Bool :=
  c = ' ' || c = '\t' || c = '\n' || c = '\r' || c = '\x0b' || c = '\x0c'
  || c = ' ' || c = '﻿'

/-- Embedding of JS `String.prototype.trim`. -/
def trimJS (s : String) : String :=
  ⟨((s.data.dropWhile jsWhitespace).reverse.dropWhile jsWhitespace).reverse⟩

/-- Lower-casing of a single character (ASCII range, as produced by
`String.prototype.toLowerCase` on the command vocabulary). -/
def lowerChar (c : Char) : Char :=
  if 'A' ≤ c ∧ c ≤ 'Z' then Char.ofNat (c.toNat + 32) else c

/-- Embedding of JS `String.prototype.toLowerCase`. -/
def toLowerJS (s : String) : String := ⟨s.data.map lowerChar⟩

/-- Normalisation applied to the incoming body by the handler:
`incoming.trim().toLowerCase()` (the `incomingTextRaw` local). -/
def normText (s : String) : String := toLowerJS (trimJS s)

/-- Longest leading run of decimal digits of a character list. -/
def leadingDigits (cs : List Char) : List Char := cs.takeWhile Char.isDigit

/-- Numeric value of a decimal digit string. -/
def digitsToNat (ds : List Char) : Nat :=
  ds.foldl (fun a c => a * 10 + (c.toNat - 48)) 0

/-- Embedding of JS `parseInt(s, 10)`: skip surrounding whitespace, read an
optional sign and then the longest prefix of decimal digits; `none` models
the `NaN` result when no digit is found. -/
def parseIntJS (s : String) : Option Int :=
  match (trimJS s).data with
  | '-' :: rest =>
      let ds := leadingDigits rest
      if ds.isEmpty then none else some (-(digitsToNat ds : Int))
  | '+' :: rest =>
      let ds := leadingDigits rest
      if ds.isEmpty then none else some ((digitsToNat ds : Int))
  | cs =>
      let ds := leadingDigits cs
      if ds.isEmpty then none else some ((digitsToNat ds : Int))

/-- Numeric menu selection of the handler: `const num = parseInt(raw, 10)`
followed by the bounds check `num >= 1 && num <= langKeys.length` and the
index `langKeys[num - 1]`. -/
def resolveSelection (raw : String) : Option String :=
  match parseIntJS raw with
  | none => none
  | some n =>
      if 1 ≤ n ∧ n ≤ (langKeys.length : Int) then langKeys.get? (n.toNat - 1)
      else none

/-- Menu option lines built by the handler:
`Object.entries(languageNames).map(([code, name], idx) => ...)`. -/
def menuLines : List String :=
  (langEntries.enum).map (fun p => Nat.repr (p.fst + 1) ++ ". " ++ p.snd.snd)

/-- Joined option lines (`options` local in the handler). -/
def menuOptions : String := String.intercalate "\n" menuLines

/-- Menu reply shown when no preference is stored and no selection parses. -/
def menuText : String :=
  "Please select your language by replying with the number:\n" ++ menuOptions

/-- Static help reply (`helpText` local in the handler). -/
def helpText : String :=
  "Welcome to the Indian Mythology Bot!\n- Select language by number:\n"
  ++ menuOptions
  ++ "\n- Ask any question to get answers in your language.\n- Type \x27change language\x27, \x27reset\x27, or \x27reset language\x27 to switch.\n- Type \x27help\x27 to see this message."

/-- Confirmation reply of the reset branch. -/
def resetText : String := "Language cleared. Please select a new language."

/-- Generic apology reply of the outer catch branch. -/
def apologyText : String := "Sorry, something went wrong. Please try again later."

/-- Preference store: the `userLanguagePrefs` Map, as a partial function
from sender identity to language code. -/
abbrev Store : Type := String → Option String

/-- Map `set`: unconditional overwrite for one sender. -/
def Store.set (st : Store) (sender code : String) : Store :=
  fun x => if x = sender then some code else st x

/-- Map `delete`: remove the entry for one sender, if any. -/
def Store.del (st : Store) (sender : String) : Store :=
  fun x => if x = sender then none else st x

/-- The store at cold start: no entries. -/
def emptyStore : Store := fun _ => none

/-- One outbound message part: a text body or a media attachment. -/
inductive Msg where
  | text (s : String)
  | media (url : String)
deriving DecidableEq

/-- Outcomes of the external calls made during one turn.  `none` means the
call threw (upstream error or timeout); `some` carries the produced value.
`tts1`/`tts2` are the audio buffers of the two Sarvam.ai attempts. -/
structure Oracle where
  shortRes : Option String
  longRes : Option String
  tts1 : Option (List Nat)
  tts2 : Option (List Nat)
  uploadRes : Option String

/-- The per-language text hook appended to the short answer in the handler
(`hookMessages` object literal in the handler), in declaration order. -/
def hookEntries : List (String × String) := [
  ("en", "\n\nFor more content, download the Saadhna app! ЁЯУ▒"),
  ("hi", "\n\nрдЕрдзрд┐рдХ рд╕рд╛рдордЧреНрд░реА рдХреЗ рд▓рд┐рдП рд╕рд╛рдзрдирд╛ рдРрдк рдбрд╛рдЙрдирд▓реЛрдб рдХрд░реЗрдВ! ЁЯУ▒"),
  ("ta", "\n\nроорпЗро▓рпБроорпН роЙро│рпНро│роЯроХрпНроХродрпНродро┐ро▒рпНроХрпБ роЪро╛родройро╛ роЖрокрпНрокрпИрокрпН рокродро┐ро╡ро┐ро▒роХрпНроХро╡рпБроорпН! ЁЯУ▒"),
  ("te", "\n\nр░ор░░р░┐р░Вр░д р░Хр░Вр░Яр▒Жр░Вр░Яр▒Н р░Хр▒Лр░╕р░В р░╕р░╛р░зр░и р░пр░╛р░кр▒НтАМр░ир▒Б р░бр▒Мр░ир▒НтАМр░▓р▒Лр░бр▒Н р░Ър▒Зр░пр░Вр░бр░┐! ЁЯУ▒"),
  ("bn", "\n\nржЖрж░ржУ ржмрж┐рж╖ржпрж╝ржмрж╕рзНрждрзБрж░ ржЬржирзНржп рж╕рж╛ржзржирж╛ ржЕрзНржпрж╛ржк ржбрж╛ржЙржирж▓рзЛржб ржХрж░рзБржи! ЁЯУ▒"),
  ("mr", "\n\nрдЕрдзрд┐рдХ рдордЬрдХреБрд░рд╛рд╕рд╛рдареА рд╕рд╛рдзрдирд╛ рдЕреЕрдк рдбрд╛рдЙрдирд▓реЛрдб рдХрд░рд╛! ЁЯУ▒"),
  ("ml", "\n\nр┤Хр╡Вр┤Яр╡Бр┤др╡╜ р┤Йр┤│р╡Нр┤│р┤Яр┤Хр╡Нр┤Хр┤др╡Нр┤др┤┐р┤ир┤╛р┤пр┤┐ р┤╕р┤╛р┤зр┤и р┤Жр┤кр╡Нр┤кр╡Н р┤бр╡Чр╡║р┤▓р╡Лр┤бр╡Н р┤Ър╡Жр┤пр╡Нр┤пр╡Бр┤Х! ЁЯУ▒"),
  ("pa", "\n\nри╣рйЛри░ ри╕риорй▒риЧри░рйА ри▓риИ ри╕ри╛ризриири╛ риРрик рибри╛риКриири▓рйЛриб риХри░рйЛ! ЁЯУ▒"),
  ("gu", "\n\nрк╡ркзрлБ рк╕рк╛ркоркЧрлНрк░рлА ркорк╛ркЯрлЗ рк╕рк╛ркзркирк╛ ркПркк ркбрк╛ркЙркирк▓рлЛркб ркХрк░рлЛ! ЁЯУ▒"),
  ("kn", "\n\nр▓╣р│Жр▓Ър│Нр▓Ър▓┐р▓и р▓╡р▓┐р▓╖р▓пр▓Чр▓│р▓┐р▓Чр▓╛р▓Чр▓┐ р▓╕р▓╛р▓зр▓ир▓╛ р▓Ер▓кр│Нр▓▓р▓┐р▓Хр│Зр▓╢р▓ир│Н р▓бр│Мр▓ир│НтАМр▓▓р│Лр▓бр│Н р▓ор▓╛р▓бр▓┐! ЁЯУ▒"),
  ("or", "\n\nрмЕрмзрм┐рмХ рммрм┐рм╖рнЯрммрм╕рнНрмдрнБ рмкрм╛рмЗрмБ рм╕рм╛рмзрмирм╛ рмЖрмкрнН рмбрм╛рмЙрмирм▓рнЛрмбрнН рмХрм░рмирнНрмдрнБ! ЁЯУ▒"),
  ("ur", "\n\n┘Е╪▓█М╪п ┘Е┘И╪з╪п ┌й█Т ┘Д█М█Т ╪│╪з╪п┌╛┘Ж╪з ╪з█М┘╛ ┌И╪з╪д┘Ж ┘Д┘И┌И ┌й╪▒█М┌║! ЁЯУ▒"),
  ("as", "\n\nржЕржзрж┐ржХ ржмрж┐рж╖ржпрж╝ржмрж╕рзНрждрзБрз░ ржмрж╛ржмрзЗ рж╕рж╛ржзржирж╛ ржПржк ржбрж╛ржЙржирж▓рзЛржб ржХрз░ржХ! ЁЯУ▒"),
  ("ne", "\n\nрдердк рд╕рд╛рдордЧреНрд░реАрдХреЛ рд▓рд╛рдЧрд┐ рд╕рд╛рдзрдирд╛ рдПрдк рдбрд╛рдЙрдирд▓реЛрдб рдЧрд░реНрдиреБрд╣реЛрд╕реН! ЁЯУ▒"),
  ("sa", "\n\nрдЕрдзрд┐рдХрд╡рд┐рд╖рдпрд╕реНрдп рдХреГрддреЗ рд╕рд╛рдзрдирд╛ рдПрдкреН рдЕрд╡рддрд╛рд░рдпрддреБ! ЁЯУ▒")
]

/-- Hook appended to the text reply: `hookMessages[lang] || hookMessages.en`. -/
def textHook (lang : String) : String :=
  match hookEntries.find? (fun e => e.fst = lang) with
  | some e => e.snd
  | none =>
      match hookEntries.find? (fun e => e.fst = "en") with
      | some e => e.snd
      | none => ""

/-- One Sarvam.ai TTS attempt of the retry loop in `generateAudioAndUpload`;
takes the oracle outcome of this attempt and the temp file state; returns
the new file state and whether the attempt succeeded.  A failed fetch,
non-ok status or missing audio field throws before the write; a written but
empty buffer fails the size check after the write. -/
def sarvamAttempt (res : Option (List Nat)) (file : Option (List Nat)) :
    Option (List Nat) × Bool :=
  match res with
  | none => (file, false)
  | some buf => (some buf, buf.length != 0)

/-- Upload section of `generateAudioAndUpload`: the `existsSync` guard
returns `null` when the temp file was never written, otherwise the
Cloudinary upload either yields the secure URL or its catch returns `null`. -/
def uploadStage (o : Oracle) (file : Option (List Nat)) : Option String :=
  match file with
  | none => none
  | some _ => o.uploadRes

/-- Embedding of `generateAudioAndUpload(text, language)` from the
Map-backed webhook variant: for non-English, up to two Sarvam.ai attempts
(returning `null` when both fail); for English the TTS step is skipped
entirely, so no temp file is ever written; then the upload section. -/
def generateAudioAndUpload (o : Oracle) (text language : String) : Option String :=
  if language ≠ "en" then
    if (sarvamAttempt o.tts1 none).snd then
      uploadStage o (sarvamAttempt o.tts1 none).fst
    else if (sarvamAttempt o.tts2 (sarvamAttempt o.tts1 none).fst).snd then
      uploadStage o (sarvamAttempt o.tts2 (sarvamAttempt o.tts1 none).fst).fst
    else none
  else uploadStage o none

/-- Content pipeline section of the handler: the short answer is mandatory
(its failure reaches the outer catch, yielding the apology and status 500);
the long answer and audio are attempted inside an inner try/catch whose
failure leaves `mediaUrl` null; the reply always carries the short text with
the language hook, plus a separate media message only when audio exists.
`audioUrlFor` is the `mediaUrl` local: the inner try/catch around the long
answer and `generateAudioAndUpload`, whose failure leaves it null. -/
def audioUrlFor (o : Oracle) (lang : String) : Option String :=
  match o.longRes with
  | none => none
  | some longText => generateAudioAndUpload o longText lang

/-- Outcome of the content pipeline section of the handler (status and
outbound message parts). -/
def contentTurn (o : Oracle) (body lang : String) : Nat × List Msg :=
  match o.shortRes with
  | none => (500, [Msg.text apologyText])
  | some shortText =>
      match audioUrlFor o lang with
      | some u => (200, [Msg.text (shortText ++ textHook lang), Msg.media u])
      | none => (200, [Msg.text (shortText ++ textHook lang)])

/-- Result of processing one inbound message: HTTP status of the webhook
response, the outbound message parts, and the preference store afterwards. -/
structure TurnResult where
  status : Nat
  messages : List Msg
  store : Store

/-- Embedding of the message branch of `handler`: help/menu check first,
then the reset triggers, then (for senders with no stored preference) the
numeric selection or the menu, and otherwise the content pipeline with the
stored language (`get(from) || defaulting to en` on a falsy value). -/
def turn (o : Oracle) (st : Store) (sender body : String) : TurnResult :=
  if normText body = "help" ∨ normText body = "menu" then
    ⟨200, [Msg.text helpText], st⟩
  else if normText body = "change language" ∨ normText body = "reset"
      ∨ normText body = "reset language" then
    ⟨200, [Msg.text resetText], st.del sender⟩
  else
    match st sender with
    | none =>
        match resolveSelection (normText body) with
        | some code =>
            ⟨200, [Msg.text ("Language set to " ++ languageNameD code)],
              st.set sender code⟩
        | none => ⟨200, [Msg.text menuText], st⟩
    | some v =>
        ⟨(contentTurn o body (if v = "" then "en" else v)).fst,
          (contentTurn o body (if v = "" then "en" else v)).snd, st⟩

/-- Cloudinary upload call of the try/catch-wrapped variant of
`generateAudioAndUpload` (src/index.js): uploading a path whose file was
never written throws, which the surrounding catch turns into `null`. -/
def uploadCallV2 (o : Oracle) (file : Option (List Nat)) : Option String :=
  match file with
  | none => none
  | some _ => o.uploadRes

/-- Embedding of the try/catch-wrapped `generateAudioAndUpload` variant
(src/index.js): one Sarvam.ai attempt for non-English (its catch returns
`null`); for English the TTS step is skipped and no temp file is written,
so the subsequent upload throws and the catch returns `null`. -/
def generateAudioAndUploadV2 (o : Oracle) (text language : String) : Option String :=
  if language ≠ "en" then
    match o.tts1 with
    | none => none
    | some buf =>
        match uploadCallV2 o (some buf) with
        | none => none
        | some url => some url
  else
    match uploadCallV2 o none with
    | none => none
    | some url => some url

/-- Reply text of the src/index.js variant: the short text, with the audio
link appended only when a media URL was produced. -/
def listenReply (shortText : String) (mediaUrl : Option String) : String :=
  match mediaUrl with
  | some u => shortText ++ "\n\n🔊 Listen here: " ++ u
  | none => shortText

/-- Media URL computation (`mediaUrl` local) of the src/index.js variant
handler: the inner try/catch around the long answer and the audio path. -/
def audioUrlForV2 (o : Oracle) (lang : String) : Option String :=
  match o.longRes with
  | none => none
  | some longText => generateAudioAndUploadV2 o longText lang

/-- Content pipeline section of the src/index.js variant handler. -/
def contentTurnV2 (o : Oracle) (body lang : String) : Nat × List Msg :=
  match o.shortRes with
  | none => (500, [Msg.text apologyText])
  | some shortText => (200, [Msg.text (listenReply shortText (audioUrlForV2 o lang))])

/-- Store invariant: every stored value is one of the enumerated codes. -/
def validStore (st : Store) : Prop :=
  ∀ x code, st x = some code → code ∈ langKeys

/-- Processing a sequence of inbound messages (oracle, sender, body). -/
def runTurns (events : List (Oracle × String × String)) (st : Store) : Store :=
  events.foldl (fun s e => (turn e.fst s e.snd.fst e.snd.snd).store) st

/-- Oracle for a turn on which every external call fails. -/
def oracleFail : Oracle := ⟨none, none, none, none, none⟩

/-- Oracle for a turn where the short answer succeeds but the long-form
audio branch fails (simulated timeout). -/
def oracleFailAudio : Oracle :=
  ⟨some "Hanuman is the devoted vanara companion of Rama.", none, none, none, none⟩

/-- Oracle for a turn on which every external call succeeds. -/
def oracleOk : Oracle :=
  ⟨some "Hanuman is the devoted vanara companion of Rama.",
    some "A long narrative about Hanuman.", some [7, 8, 9], none,
    some "https://res.cloudinary.com/demo/whatsapp_audio/a.mp3"⟩

theorem turn_help_eq (o : Oracle) (st : Store) (sender body : String)
    (h : normText body = "help" ∨ normText body = "menu") :
    turn o st sender body = ⟨200, [Msg.text helpText], st⟩ := by
  unfold turn
  rw [if_pos h]

theorem turn_reset_eq (o : Oracle) (st : Store) (sender body : String)
    (hH : ¬ (normText body = "help" ∨ normText body = "menu"))
    (hR : normText body = "change language" ∨ normText body = "reset"
      ∨ normText body = "reset language") :
    turn o st sender body = ⟨200, [Msg.text resetText], st.del sender⟩ := by
  unfold turn
  rw [if_neg hH, if_pos hR]

theorem turn_sel_eq (o : Oracle) (st : Store) (sender body code : String)
    (hH : ¬ (normText body = "help" ∨ normText body = "menu"))
    (hR : ¬ (normText body = "change language" ∨ normText body = "reset"
      ∨ normText body = "reset language"))
    (h0 : st sender = none)
    (hsel : resolveSelection (normText body) = some code) :
    turn o st sender body =
      ⟨200, [Msg.text ("Language set to " ++ languageNameD code)],
        st.set sender code⟩ := by
  unfold turn
  rw [if_neg hH, if_neg hR, h0, hsel]

theorem turn_menu_eq (o : Oracle) (st : Store) (sender body : String)
    (hH : ¬ (normText body = "help" ∨ normText body = "menu"))
    (hR : ¬ (normText body = "change language" ∨ normText body = "reset"
      ∨ normText body = "reset language"))
    (h0 : st sender = none)
    (hsel : resolveSelection (normText body) = none) :
    turn o st sender body = ⟨200, [Msg.text menuText], st⟩ := by
  unfold turn
  rw [if_neg hH, if_neg hR, h0, hsel]

theorem turn_content_eq (o : Oracle) (st : Store) (sender body v : String)
    (hH : ¬ (normText body = "help" ∨ normText body = "menu"))
    (hR : ¬ (normText body = "change language" ∨ normText body = "reset"
      ∨ normText body = "reset language"))
    (hv : st sender = some v) :
    turn o st sender body =
      ⟨(contentTurn o body (if v = "" then "en" else v)).fst,
        (contentTurn o body (if v = "" then "en" else v)).snd, st⟩ := by
  unfold turn
  rw [if_neg hH, if_neg hR, hv]

theorem Store.del_self (st : Store) (sender : String) :
    (st.del sender) sender = none := by
  unfold Store.del
  rw [if_pos rfl]

theorem Store.del_idem (st : Store) (sender : String) :
    (st.del sender).del sender = st.del sender := by
  funext x
  unfold Store.del
  by_cases hx : x = sender
  · simp only [if_pos hx]
  · simp only [if_neg hx]

theorem Store.del_absent (st : Store) (sender : String) (h : st sender = none) :
    st.del sender = st := by
  funext x
  unfold Store.del
  by_cases hx : x = sender
  · subst hx
    rw [if_pos rfl]
    exact h.symm
  · simp only [if_neg hx]

theorem Store.set_self (st : Store) (sender code : String) :
    (st.set sender code) sender = some code := by
  unfold Store.set
  rw [if_pos rfl]

/-- A produced media URL requires a non-English language, a successful
Sarvam attempt and a successful upload. -/
theorem generateAudioAndUpload_some (o : Oracle) (text lang u : String)
    (h : generateAudioAndUpload o text lang = some u) :
    lang ≠ "en" ∧ o.uploadRes = some u ∧
      ((sarvamAttempt o.tts1 none).snd = true ∨
        (sarvamAttempt o.tts2 (sarvamAttempt o.tts1 none).fst).snd = true) := by
  unfold generateAudioAndUpload at h
  by_cases hl : lang ≠ "en"
  · rw [if_pos hl] at h
    refine ⟨hl, ?_, ?_⟩
    · by_cases h1 : (sarvamAttempt o.tts1 none).snd
      · rw [if_pos h1] at h
        rcases ho : o.tts1 with _ | buf
        · rw [ho] at h1; exact absurd h1 (by decide)
        · rw [ho] at h
          exact h
      · rw [if_neg h1] at h
        by_cases h2 : (sarvamAttempt o.tts2 (sarvamAttempt o.tts1 none).fst).snd
        · rw [if_pos h2] at h
          rcases ho : o.tts2 with _ | buf
          · rw [ho] at h2
            unfold sarvamAttempt at h2
            exact absurd h2 (by simp)
          · rw [ho] at h
            unfold sarvamAttempt at h
            exact h
        · rw [if_neg h2] at h
          exact absurd h (by simp)
    · by_cases h1 : (sarvamAttempt o.tts1 none).snd
      · exact Or.inl h1
      · by_cases h2 : (sarvamAttempt o.tts2 (sarvamAttempt o.tts1 none).fst).snd
        · exact Or.inr h2
        · rw [if_neg h1, if_neg h2] at h
          exact absurd h (by simp)
  · rw [if_neg hl] at h
    exact absurd h (by simp [uploadStage])

/-- When the long answer fails or the audio path yields no URL, the media
URL is null. -/
theorem audioUrlFor_none (o : Oracle) (lang : String)
    (h : o.longRes = none ∨
      ∀ lt, o.longRes = some lt → generateAudioAndUpload o lt lang = none) :
    audioUrlFor o lang = none := by
  unfold audioUrlFor
  rcases ho : o.longRes with _ | lt
  · rfl
  · rcases h with h | h
    · rw [ho] at h; cases h
    · exact h lt ho

/-- A successfully resolved selection is one of the enumerated codes. -/
theorem resolveSelection_mem (raw code : String)
    (h : resolveSelection raw = some code) : code ∈ langKeys := by
  unfold resolveSelection at h
  split at h
  · cases h
  · split at h
    · exact List.get?_mem h
    · cases h

/-- C1: for a sender with no stored preference, sending the integer string
k with 1 ≤ k ≤ 15 stores the k-th language code in enumeration order,
replies confirming the language was set to its display name, and leaves the
sender with a stored entry (state S1). -/
theorem c1_numeric_selection (o : Oracle) (st : Store) (sender : String)
    (k : Nat) (h0 : st sender = none) (hk1 : 1 ≤ k) (hk2 : k ≤ 15) :
    (turn o st sender (Nat.repr k)).store sender = langKeys.get? (k - 1) ∧
    (turn o st sender (Nat.repr k)).messages =
      [Msg.text ("Language set to "
        ++ ((langEntries.get? (k - 1)).map Prod.snd).getD "undefined")] ∧
    ((turn o st sender (Nat.repr k)).store sender).isSome = true := by
  have hH : ¬ (normText (Nat.repr k) = "help" ∨ normText (Nat.repr k) = "menu") := by
    interval_cases k <;> decide
  have hR : ¬ (normText (Nat.repr k) = "change language"
      ∨ normText (Nat.repr k) = "reset"
      ∨ normText (Nat.repr k) = "reset language") := by
    interval_cases k <;> decide
  have hsel : resolveSelection (normText (Nat.repr k))
      = some ((langKeys.get? (k - 1)).getD "en") := by
    interval_cases k <;> decide
  rw [turn_sel_eq o st sender (Nat.repr k) _ hH hR h0 hsel]
  refine ⟨?_, ?_, ?_⟩
  · show (st.set sender ((langKeys.get? (k - 1)).getD "en")) sender
      = langKeys.get? (k - 1)
    rw [Store.set_self]
    interval_cases k <;> decide
  · show [Msg.text ("Language set to "
        ++ languageNameD ((langKeys.get? (k - 1)).getD "en"))] = _
    interval_cases k <;> decide
  · show ((st.set sender ((langKeys.get? (k - 1)).getD "en")) sender).isSome = true
    rw [Store.set_self]
    rfl

theorem c1_numeric_selection_witness :
    (turn oracleFail emptyStore "whatsapp:+15550001" (Nat.repr 3)).store
        "whatsapp:+15550001" = langKeys.get? (3 - 1) ∧
    (turn oracleFail emptyStore "whatsapp:+15550001" (Nat.repr 3)).messages =
      [Msg.text ("Language set to "
        ++ ((langEntries.get? (3 - 1)).map Prod.snd).getD "undefined")] ∧
    ((turn oracleFail emptyStore "whatsapp:+15550001" (Nat.repr 3)).store
        "whatsapp:+15550001").isSome = true :=
  c1_numeric_selection oracleFail emptyStore "whatsapp:+15550001" 3 rfl
    (by decide) (by decide)

/-- C2: for every valid index k in 1..15, resolving the decimal string of k
returns exactly the code whose name the rendered menu displays on line k:
menu rendering and selection resolution agree on the enumeration order. -/
theorem c2_menu_selection_roundtrip (k : Nat) (hk1 : 1 ≤ k) (hk2 : k ≤ 15) :
    langKeys.length = 15 ∧
    resolveSelection (Nat.repr k) = (langEntries.get? (k - 1)).map Prod.fst ∧
    menuLines.get? (k - 1)
      = (langEntries.get? (k - 1)).map (fun e => Nat.repr k ++ ". " ++ e.snd) := by
  refine ⟨by decide, ?_, ?_⟩ <;> interval_cases k <;> decide

theorem c2_menu_selection_roundtrip_witness :
    langKeys.length = 15 ∧
    resolveSelection (Nat.repr 3) = (langEntries.get? (3 - 1)).map Prod.fst ∧
    menuLines.get? (3 - 1)
      = (langEntries.get? (3 - 1)).map (fun e => Nat.repr 3 ++ ". " ++ e.snd) :=
  c2_menu_selection_roundtrip 3 (by decide) (by decide)

/-- C3: for a sender with no stored preference, a non-command message that
is non-numeric or parses to an integer outside 1..15 leaves the sender
without an entry and the reply is the constant rendered menu (hence
byte-identical across repeated such calls). -/
theorem c3_fallback_to_menu (o : Oracle) (st : Store) (sender body : String)
    (h0 : st sender = none)
    (hH : ¬ (normText body = "help" ∨ normText body = "menu"))
    (hR : ¬ (normText body = "change language" ∨ normText body = "reset"
      ∨ normText body = "reset language"))
    (hnum : parseIntJS (normText body) = none ∨
      ∀ n : Int, parseIntJS (normText body) = some n → n < 1 ∨ 15 < n) :
    turn o st sender body = ⟨200, [Msg.text menuText], st⟩ := by
  have hsel : resolveSelection (normText body) = none := by
    unfold resolveSelection
    split
    · rfl
    next n hp =>
      have hrange : n < 1 ∨ 15 < n := by
        rcases hnum with h | h
        · rw [hp] at h; cases h
        · exact h n hp
      have hcond : ¬ (1 ≤ n ∧ n ≤ ((langKeys.length : Nat) : Int)) := by
        intro hc
        have h15 : ((langKeys.length : Nat) : Int) = 15 := by decide
        rw [h15] at hc
        rcases hrange with h' | h' <;> omega
      rw [if_neg hcond]
  exact turn_menu_eq o st sender body hH hR h0 hsel

theorem c3_fallback_to_menu_witness :
    turn oracleFail emptyStore "whatsapp:+15550001" "not a number"
        = ⟨200, [Msg.text menuText], emptyStore⟩ ∧
    turn oracleFail emptyStore "whatsapp:+15550001" "99"
        = ⟨200, [Msg.text menuText], emptyStore⟩ :=
  ⟨c3_fallback_to_menu oracleFail emptyStore "whatsapp:+15550001" "not a number"
      rfl (by decide) (by decide) (Or.inl (by decide)),
    c3_fallback_to_menu oracleFail emptyStore "whatsapp:+15550001" "99"
      rfl (by decide) (by decide)
      (Or.inr (fun n hn => by
        have : n = 99 := by
          have h99 : parseIntJS (normText "99") = some 99 := by decide
          rw [h99] at hn
          injection hn with h
          exact h.symm
        omega))⟩

/-- C4: any trim/case variant of the reset commands clears the sender's
entry, emits the confirmation reply, is idempotent (a second identical
reset leaves the same cleared store), and clearing an absent entry leaves
the store exactly as it was. -/
theorem c4_reset_clears_idempotent (o : Oracle) (st : Store) (sender body : String)
    (hR : normText body = "change language" ∨ normText body = "reset"
      ∨ normText body = "reset language") :
    (turn o st sender body).store sender = none ∧
    (turn o st sender body).messages = [Msg.text resetText] ∧
    (turn o (turn o st sender body).store sender body).store
      = (turn o st sender body).store ∧
    (st sender = none → (turn o st sender body).store = st) := by
  have hH : ¬ (normText body = "help" ∨ normText body = "menu") := by
    rcases hR with h | h | h <;> rw [h] <;> decide
  rw [turn_reset_eq o st sender body hH hR]
  refine ⟨Store.del_self st sender, rfl, ?_, fun h0 => Store.del_absent st sender h0⟩
  show (turn o (st.del sender) sender body).store = st.del sender
  rw [turn_reset_eq o (st.del sender) sender body hH hR]
  exact Store.del_idem st sender

theorem c4_reset_clears_idempotent_witness :
    (turn oracleFail (Store.set emptyStore "u1" "hi") "u1" " RESET ").store "u1"
        = none ∧
    (turn oracleFail (Store.set emptyStore "u1" "hi") "u1" " RESET ").messages
        = [Msg.text resetText] ∧
    (turn oracleFail
        (turn oracleFail (Store.set emptyStore "u1" "hi") "u1" " RESET ").store
        "u1" " RESET ").store
      = (turn oracleFail (Store.set emptyStore "u1" "hi") "u1" " RESET ").store ∧
    ((Store.set emptyStore "u1" "hi") "u1" = none →
      (turn oracleFail (Store.set emptyStore "u1" "hi") "u1" " RESET ").store
        = Store.set emptyStore "u1" "hi") :=
  c4_reset_clears_idempotent oracleFail (Store.set emptyStore "u1" "hi") "u1"
    " RESET " (Or.inr (Or.inl (by decide)))

/-- C5: any trim/case variant of help or menu yields the full static help
text, a success status, and leaves the preference store completely
unchanged, whatever the sender's current state. -/
theorem c5_help_is_pure (o : Oracle) (st : Store) (sender body : String)
    (h : normText body = "help" ∨ normText body = "menu") :
    (turn o st sender body).messages = [Msg.text helpText] ∧
    (turn o st sender body).store = st ∧
    (turn o st sender body).status = 200 := by
  rw [turn_help_eq o st sender body h]
  exact ⟨rfl, rfl, rfl⟩

theorem c5_help_is_pure_witness :
    (turn oracleFail (Store.set emptyStore "u1" "ta") "u1" "  MeNu ").messages
        = [Msg.text helpText] ∧
    (turn oracleFail (Store.set emptyStore "u1" "ta") "u1" "  MeNu ").store
        = Store.set emptyStore "u1" "ta" ∧
    (turn oracleFail (Store.set emptyStore "u1" "ta") "u1" "  MeNu ").status = 200 :=
  c5_help_is_pure oracleFail (Store.set emptyStore "u1" "ta") "u1" "  MeNu "
    (Or.inr (by decide))

/-- C6: for a sender with a stored preference, any non-command free-form
message leaves the whole preference store (this sender's entry and every
other entry) unchanged after the turn, whether the content pipeline
succeeds or fails. -/
theorem c6_s1_store_frame (o : Oracle) (st : Store) (sender body v : String)
    (hv : st sender = some v)
    (hH : ¬ (normText body = "help" ∨ normText body = "menu"))
    (hR : ¬ (normText body = "change language" ∨ normText body = "reset"
      ∨ normText body = "reset language")) :
    (turn o st sender body).store = st ∧
    (turn o st sender body).store sender = some v := by
  rw [turn_content_eq o st sender body v hH hR hv]
  exact ⟨rfl, hv⟩

theorem c6_s1_store_frame_witness :
    (turn oracleFail (Store.set emptyStore "u1" "ta") "u1"
        "Tell me about Hanuman").store = Store.set emptyStore "u1" "ta" ∧
    (turn oracleFail (Store.set emptyStore "u1" "ta") "u1"
        "Tell me about Hanuman").store "u1" = some "ta" :=
  c6_s1_store_frame oracleFail (Store.set emptyStore "u1" "ta") "u1"
    "Tell me about Hanuman" "ta" rfl (by decide) (by decide)

/-- C7: when the short answer succeeds, the reply has success status and
always contains the short text; a media part appears only if the long
answer, a Sarvam TTS attempt, and the upload all succeeded; and any failure
in the long-form/audio branch is contained, yielding a text-only reply. -/
theorem c7_short_always_audio_only_if (o : Oracle) (body lang shortText : String)
    (hshort : o.shortRes = some shortText) :
    (contentTurn o body lang).fst = 200 ∧
    Msg.text (shortText ++ textHook lang) ∈ (contentTurn o body lang).snd ∧
    (∀ u, Msg.media u ∈ (contentTurn o body lang).snd →
      (∃ lt, o.longRes = some lt) ∧ lang ≠ "en" ∧ o.uploadRes = some u ∧
        ((sarvamAttempt o.tts1 none).snd = true ∨
          (sarvamAttempt o.tts2 (sarvamAttempt o.tts1 none).fst).snd = true)) ∧
    ((o.longRes = none ∨
        ∀ lt, o.longRes = some lt → generateAudioAndUpload o lt lang = none) →
      (contentTurn o body lang).snd = [Msg.text (shortText ++ textHook lang)]) := by
  unfold contentTurn
  rw [hshort]
  rcases ha : audioUrlFor o lang with _ | u0
  · refine ⟨rfl, ?_, ?_, fun _ => rfl⟩
    · simp
    · intro u hu
      simp at hu
  · refine ⟨rfl, ?_, ?_, ?_⟩
    · simp
    · intro u hu
      have hu0 : u = u0 := by
        simp at hu
        exact hu
      subst hu0
      unfold audioUrlFor at ha
      split at ha
      · cases ha
      next lt hlong =>
        have hc := generateAudioAndUpload_some o lt lang u ha
        exact ⟨⟨lt, hlong⟩, hc.1, hc.2.1, hc.2.2⟩
    · intro hfail
      have hnone : audioUrlFor o lang = none := audioUrlFor_none o lang hfail
      rw [ha] at hnone
      cases hnone

theorem c7_short_always_audio_only_if_witness :
    (contentTurn oracleFailAudio "Tell me about Hanuman" "hi").fst = 200 ∧
    Msg.text ("Hanuman is the devoted vanara companion of Rama."
        ++ textHook "hi")
      ∈ (contentTurn oracleFailAudio "Tell me about Hanuman" "hi").snd ∧
    (∀ u, Msg.media u ∈ (contentTurn oracleFailAudio "Tell me about Hanuman" "hi").snd →
      (∃ lt, oracleFailAudio.longRes = some lt) ∧ "hi" ≠ "en" ∧
        oracleFailAudio.uploadRes = some u ∧
        ((sarvamAttempt oracleFailAudio.tts1 none).snd = true ∨
          (sarvamAttempt oracleFailAudio.tts2
            (sarvamAttempt oracleFailAudio.tts1 none).fst).snd = true)) ∧
    ((oracleFailAudio.longRes = none ∨
        ∀ lt, oracleFailAudio.longRes = some lt →
          generateAudioAndUpload oracleFailAudio lt "hi" = none) →
      (contentTurn oracleFailAudio "Tell me about Hanuman" "hi").snd
        = [Msg.text ("Hanuman is the devoted vanara companion of Rama."
            ++ textHook "hi")]) :=
  c7_short_always_audio_only_if oracleFailAudio "Tell me about Hanuman" "hi"
    "Hanuman is the devoted vanara companion of Rama." rfl

/-- C8: when the short answer fails, the whole turn fails: status 500, the
single reply is the constant generic apology (no raw error text), and the
store is untouched. -/
theorem c8_short_failure_hard_fails (o : Oracle) (st : Store) (sender body v : String)
    (hv : st sender = some v)
    (hH : ¬ (normText body = "help" ∨ normText body = "menu"))
    (hR : ¬ (normText body = "change language" ∨ normText body = "reset"
      ∨ normText body = "reset language"))
    (hshort : o.shortRes = none) :
    (turn o st sender body).status = 500 ∧
    (turn o st sender body).messages = [Msg.text apologyText] ∧
    (turn o st sender body).store = st := by
  rw [turn_content_eq o st sender body v hH hR hv]
  unfold contentTurn
  rw [hshort]
  exact ⟨rfl, rfl, rfl⟩

theorem c8_short_failure_hard_fails_witness :
    (turn oracleFail (Store.set emptyStore "u1" "ta") "u1"
        "Tell me about Hanuman").status = 500 ∧
    (turn oracleFail (Store.set emptyStore "u1" "ta") "u1"
        "Tell me about Hanuman").messages = [Msg.text apologyText] ∧
    (turn oracleFail (Store.set emptyStore "u1" "ta") "u1"
        "Tell me about Hanuman").store = Store.set emptyStore "u1" "ta" :=
  c8_short_failure_hard_fails oracleFail (Store.set emptyStore "u1" "ta") "u1"
    "Tell me about Hanuman" "ta" rfl (by decide) (by decide) rfl

/-- C9: every router operation preserves the invariant that stored values
are enumerated language codes, and no sequence of inbound messages started
from the empty store can store a code outside the enumerated set. -/
theorem c9_store_codes_invariant :
    (∀ (o : Oracle) (st : Store) (sender body : String),
      validStore st → validStore (turn o st sender body).store) ∧
    (∀ events : List (Oracle × String × String),
      validStore (runTurns events emptyStore)) := by
  have hstep : ∀ (o : Oracle) (st : Store) (sender body : String),
      validStore st → validStore (turn o st sender body).store := by
    intro o st sender body hv
    by_cases hH : normText body = "help" ∨ normText body = "menu"
    · rw [turn_help_eq o st sender body hH]; exact hv
    · by_cases hR : normText body = "change language" ∨ normText body = "reset"
        ∨ normText body = "reset language"
      · rw [turn_reset_eq o st sender body hH hR]
        intro x code hx
        have hx' : (if x = sender then none else st x) = some code := hx
        by_cases hxs : x = sender
        · rw [if_pos hxs] at hx'; cases hx'
        · rw [if_neg hxs] at hx'; exact hv x code hx'
      · rcases h0 : st sender with _ | v
        · rcases hsel : resolveSelection (normText body) with _ | code
          · rw [turn_menu_eq o st sender body hH hR h0 hsel]; exact hv
          · rw [turn_sel_eq o st sender body code hH hR h0 hsel]
            intro x c hx
            have hx' : (if x = sender then some code else st x) = some c := hx
            by_cases hxs : x = sender
            · rw [if_pos hxs] at hx'
              injection hx' with hc
              subst hc
              exact resolveSelection_mem (normText body) code hsel
            · rw [if_neg hxs] at hx'; exact hv x c hx'
        · rw [turn_content_eq o st sender body v hH hR h0]; exact hv
  refine ⟨hstep, ?_⟩
  intro events
  have hfold : ∀ (evs : List (Oracle × String × String)) (st : Store),
      validStore st →
      validStore (evs.foldl (fun s e => (turn e.fst s e.snd.fst e.snd.snd).store) st) := by
    intro evs
    induction evs with
    | nil => intro st h; exact h
    | cons e tl ih =>
        intro st h
        exact ih _ (hstep e.fst st e.snd.fst e.snd.snd h)
  exact hfold events emptyStore (fun x code h => by cases h)

theorem c9_store_codes_invariant_witness :
    validStore (turn oracleFail emptyStore "u1" "3").store :=
  c9_store_codes_invariant.1 oracleFail emptyStore "u1" "3"
    (fun _ _ h => by cases h)

/-- C10: in the try/catch-wrapped handler variant, an English-preference
turn never carries audio: TTS is skipped for en, the upload of the never
written temp file fails and the catch yields null, so the reply is exactly
the text-only short answer with success status. -/
theorem c10_english_audio_always_null (o : Oracle) (body shortText : String)
    (hshort : o.shortRes = some shortText) :
    uploadCallV2 o none = none ∧
    generateAudioAndUploadV2 o body "en" = none ∧
    contentTurnV2 o body "en" = (200, [Msg.text shortText]) := by
  have hgen : ∀ t, generateAudioAndUploadV2 o t "en" = none := by
    intro t
    unfold generateAudioAndUploadV2
    rw [if_neg (fun h => h rfl)]
    rfl
  refine ⟨rfl, hgen body, ?_⟩
  unfold contentTurnV2
  rw [hshort]
  have hmedia : audioUrlForV2 o "en" = none := by
    unfold audioUrlForV2
    split
    · rfl
    next lt _ => exact hgen lt
  rw [hmedia]
  rfl

theorem c10_english_audio_always_null_witness :
    uploadCallV2 oracleOk none = none ∧
    generateAudioAndUploadV2 oracleOk "Tell me about Hanuman" "en" = none ∧
    contentTurnV2 oracleOk "Tell me about Hanuman" "en"
      = (200, [Msg.text "Hanuman is the devoted vanara companion of Rama."]) :=
  c10_english_audio_always_null oracleOk "Tell me about Hanuman"
    "Hanuman is the devoted vanara companion of Rama." rfl

end WhatsappBot
